import Mathlib

/-!
Verification of the CrisisIntel booking allocation engine
(Backend/crisisintel/api/views.py) against its design specification.

Times of day ("HH:MM" strings in the source) are represented by their
minute-of-day value: the source converts with hhmm_to_min / min_to_hhmm,
which are inverse bijections on [0, 1440), so membership tests on the
string set of taken times coincide with membership tests on the minute
values.  Calendar dates are represented by a day index (DATE(x) in SQL);
a UTC instant is a minute count nowMin with day nowMin / 1440 and
time-of-day nowMin % 1440.
-/

namespace CrisisIntel

/-- Clamp of the desired minute into the window, as in book_service:
first raise to wstart_min, then cap at wend_min (views.py 1472-1474). -/
def clampDesired (d ws we : Int) : Int :=
  if (if d < ws then ws else d) > we then we else (if d < ws then ws else d)

/-- Probe signs for distance index i: [0] at distance 0, else later first
then earlier (views.py 1487: [0] if i == 0 else [+1, -1]). -/
def probeSigns (i : Nat) : List Int :=
  if i = 0 then [0] else [1, -1]

/-- One iteration of the inner loop of the nearest-slot search: try the
candidates at distance i * step, skipping those outside the window and
those whose HH:MM string is in the taken set (views.py 1487-1495).
min_to_hhmm reduces modulo 1440 before formatting (views.py 1463). -/
def probeAt (d ws we : Int) (step : Nat) (taken : List Int) (i : Nat) : Option Int :=
  (probeSigns i).findSome? (fun sg =>
    if d + sg * i * step < ws ∨ d + sg * i * step > we then none
    else if (d + sg * i * step) % 1440 ∈ taken then none
    else some ((d + sg * i * step) % 1440))

/-- Iteration bound of the outer loop: max_iters = max(1, (wend_min -
wstart_min) // max(1, step)) (views.py 1485).  Python floor division of a
negative span is negative and is replaced by 1; Int.toNat sends it to 0
and the outer max restores 1, so the two agree for every input. -/
def maxIters (ws we : Int) (step : Nat) : Nat :=
  max 1 ((we - ws).toNat / max 1 step)

/-- The outer loop of the nearest-slot search, by remaining fuel:
probe distance i, then i+1, ... (views.py 1486-1497). -/
def searchLoop (d ws we : Int) (step : Nat) (taken : List Int) : Nat → Nat → Option Int
  | _, 0 => none
  | i, Nat.succ fuel =>
    match probeAt d ws we step taken i with
    | some t => some t
    | none => searchLoop d ws we step taken (i + 1) fuel

/-- The inline nearest-slot search of book_service (views.py 1468-1499):
clamp the desired time into the window, then probe distances
0, +step, -step, +2*step, -2*step, ... and return the first free
in-window candidate, or none when all probed candidates are taken. -/
def findNearestSlot (desired ws we : Int) (step : Nat) (taken : List Int) : Option Int :=
  searchLoop (clampDesired desired ws we) ws we step taken 0 (maxIters ws we step + 1)

/-- The in-window candidates produced at distance index i, in probe
order, reduced modulo 1440 as min_to_hhmm does. -/
def probeRow (d ws we : Int) (step : Nat) (i : Nat) : List Int :=
  (probeSigns i).filterMap (fun sg =>
    if d + sg * i * step < ws ∨ d + sg * i * step > we then none
    else some ((d + sg * i * step) % 1440))

/-- The full ordered list of in-window candidates probed by the search:
distance 0 first, then at each larger distance the later candidate
before the earlier one. -/
def probeList (desired ws we : Int) (step : Nat) : List Int :=
  (List.range (maxIters ws we step + 1)).flatMap
    (probeRow (clampDesired desired ws we) ws we step)

theorem findSome?_window_eq_find? (l taken : List Int)
    (A : Int → Prop) [DecidablePred A] (v : Int → Int) :
    (l.findSome? (fun sg => if A sg then none
        else if v sg ∈ taken then none else some (v sg)))
      = (l.filterMap (fun sg => if A sg then none else some (v sg))).find?
          (fun c => decide (c ∉ taken)) := by
  induction l with
  | nil => rfl
  | cons a l ih =>
    by_cases hA : A a
    · simp only [List.findSome?_cons, List.filterMap_cons, hA, if_pos, reduceIte, ih]
    · by_cases ht : v a ∈ taken
      · simp only [List.findSome?_cons, List.filterMap_cons, hA, reduceIte, ht,
          List.find?_cons, ih]
        simp [ht]
      · simp only [List.findSome?_cons, List.filterMap_cons, hA, reduceIte, ht,
          List.find?_cons]
        simp [ht]

theorem probeAt_eq_find? (d ws we : Int) (step : Nat) (taken : List Int) (i : Nat) :
    probeAt d ws we step taken i
      = (probeRow d ws we step i).find? (fun c => decide (c ∉ taken)) :=
  findSome?_window_eq_find? (probeSigns i) taken
    (fun sg => d + sg * i * step < ws ∨ d + sg * i * step > we)
    (fun sg => (d + sg * i * step) % 1440)

theorem searchLoop_eq_find? (d ws we : Int) (step : Nat) (taken : List Int)
    (fuel : Nat) : ∀ i : Nat,
    searchLoop d ws we step taken i fuel
      = ((List.range' i fuel).flatMap (probeRow d ws we step)).find?
          (fun c => decide (c ∉ taken)) := by
  induction fuel with
  | zero => intro i; simp [searchLoop]
  | succ n ih =>
    intro i
    rw [List.range'_succ]
    simp only [searchLoop, List.flatMap_cons, List.find?_append, ih (i + 1),
      probeAt_eq_find? d ws we step taken i]
    cases (probeRow d ws we step i).find? (fun c => decide (c ∉ taken)) <;> simp

/-- The nearest-slot search equals a first-match scan of the ordered
probe list: this packages the probe order, the tie-break (later before
earlier at equal distance) and the taken-set filter in one equation. -/
theorem findNearestSlot_eq_find? (desired ws we : Int) (step : Nat) (taken : List Int) :
    findNearestSlot desired ws we step taken
      = (probeList desired ws we step).find? (fun c => decide (c ∉ taken)) := by
  unfold findNearestSlot probeList
  rw [searchLoop_eq_find?, List.range_eq_range']

theorem mem_probeList_bounds (desired ws we c : Int) (step : Nat)
    (hws : 0 ≤ ws) (hwe : we < 1440)
    (hc : c ∈ probeList desired ws we step) : ws ≤ c ∧ c ≤ we := by
  unfold probeList at hc
  rw [List.mem_flatMap] at hc
  obtain ⟨i, _, hrow⟩ := hc
  unfold probeRow at hrow
  rw [List.mem_filterMap] at hrow
  obtain ⟨sg, _, heq⟩ := hrow
  by_cases hwin : clampDesired desired ws we + sg * i * step < ws
      ∨ clampDesired desired ws we + sg * i * step > we
  · rw [if_pos hwin] at heq
    exact absurd heq (by simp)
  · rw [if_neg hwin] at heq
    push_neg at hwin
    have hmod : (clampDesired desired ws we + sg * i * step) % 1440
        = clampDesired desired ws we + sg * i * step :=
      Int.emod_eq_of_lt (by omega) (by omega)
    rw [hmod] at heq
    cases heq
    omega

/-! ## Data model

Booking rows of the service_bookings table and their queries, as read by
the booking endpoints.  The crisis / bed-capacity side path is modelled
with crisis_id = NULL (the claims under verification concern the plain
booking flow), and a fetched, existing service row is assumed: the
missing_fields / service_not_found guards that precede it are not part
of any claim. -/

/-- Booking status values stored in the status column. -/
inductive BStatus
  | booked
  | confirmed
  | declined
  | cancelled
  | done
  | cancel_requested
deriving DecidableEq, Repr

/-- A row of the service_bookings table.  day and timeHM encode the
DATE and TIME parts of scheduled_at. -/
structure ServiceBooking where
  id : Nat
  user_id : Nat
  hospital_user_id : Nat
  service_id : Nat
  day : Nat
  timeHM : Int
  status : BStatus
  serial : Nat
  approx_time : Option Int
  notes : Option String
  hidden_by_user : Nat
deriving DecidableEq, Repr

/-- The columns of a hospital_services row that book_service reads
(views.py 1287).  max_per_day = 0 encodes NULL / unset, as does
duration_minutes = 0 (Python "or" coalesces both to the defaults).
isAmbulance is the test "ambulance in name.lower()". -/
structure HospitalService where
  id : Nat
  hospital_user_id : Nat
  available : Nat
  max_per_day : Nat
  window_start_time : Option Int
  window_end_time : Option Int
  duration_minutes : Nat
  isAmbulance : Bool
deriving DecidableEq, Repr

/-- COUNT of rows with this user, service, day and status booked
(views.py 1330: the one-per-day query). -/
def countBookedUser (db : List ServiceBooking) (u s day : Nat) : Nat :=
  (db.filter (fun b =>
    b.user_id == u && b.service_id == s && b.day == day && b.status == BStatus.booked)).length

/-- COUNT of rows with this service, day and status booked (views.py
1347: the capacity query, and 1420: the serial query — both filter on
status booked only). -/
def countBookedDay (db : List ServiceBooking) (s day : Nat) : Nat :=
  (db.filter (fun b =>
    b.service_id == s && b.day == day && b.status == BStatus.booked)).length

/-- TIME(scheduled_at) of rows with this service, day and status booked
(views.py 1431: the taken-times query). -/
def takenTimes (db : List ServiceBooking) (s day : Nat) : List Int :=
  (db.filter (fun b =>
    b.service_id == s && b.day == day && b.status == BStatus.booked)).map (fun b => b.timeHM)

/-- CountActive as the specification defines it (spec section 4.2):
bookings with status in the set of booked and confirmed, for comparison
with the counts the code actually uses. -/
def countActiveSpec (db : List ServiceBooking) (s day : Nat) : Nat :=
  (db.filter (fun b => b.service_id == s && b.day == day &&
    (b.status == BStatus.booked || b.status == BStatus.confirmed))).length

/-- Serial columns of all rows for a service and day, every status. -/
def allSerials (db : List ServiceBooking) (s day : Nat) : List Nat :=
  (db.filter (fun b => b.service_id == s && b.day == day)).map (fun b => b.serial)

/-- Serial columns of the booked rows for a service and day. -/
def bookedSerials (db : List ServiceBooking) (s day : Nat) : List Nat :=
  (db.filter (fun b =>
    b.service_id == s && b.day == day && b.status == BStatus.booked)).map (fun b => b.serial)

/-- Lock-protocol events of one allocation attempt: the GET_LOCK call
with its outcome, the RELEASE_LOCK call, and the INSERT. -/
inductive Ev
  | lock (acquired : Bool)
  | unlock
  | insert
deriving DecidableEq, Repr

instance {ε α : Type} [DecidableEq ε] [DecidableEq α] : DecidableEq (Except ε α) :=
  fun x y =>
  match x, y with
  | Except.ok a, Except.ok b =>
    if h : a = b then Decidable.isTrue (congrArg Except.ok h)
    else Decidable.isFalse (fun hc => h (Except.ok.inj hc))
  | Except.error a, Except.error b =>
    if h : a = b then Decidable.isTrue (congrArg Except.error h)
    else Decidable.isFalse (fun hc => h (Except.error.inj hc))
  | Except.ok _, Except.error _ => Decidable.isFalse (fun hc => Except.noConfusion hc)
  | Except.error _, Except.ok _ => Decidable.isFalse (fun hc => Except.noConfusion hc)

/-- Result of an endpoint together with its lock/insert event trace. -/
structure Outcome (ε α : Type) where
  result : Except ε α
  trace : List Ev
deriving DecidableEq, Repr

/-- Error bodies book_service can return on the modelled path. -/
inductive BookErr
  | service_unavailable
  | one_per_day
  | full
  | outside_window
deriving DecidableEq, Repr

/-- The effective day used by the one-per-day, capacity, serial and
taken-times queries of book_service: the current UTC date for an
ambulance service, otherwise the date of scheduled_at, defaulting to
the current UTC date when absent (views.py 1317-1325, 1364-1382; for a
well-formed scheduled_at the DATE() of effective_when at 1330/1347 and
of date_part at 1420/1431 coincide). -/
def effectiveDay (svc : HospitalService) (reqDay : Option Nat) (nowMin : Nat) : Nat :=
  if svc.isAmbulance then nowMin / 1440 else reqDay.getD (nowMin / 1440)

/-- The strict window enforcement of book_service (views.py 1383-1402):
fires only when both window bounds and a requested time part are
present and the time lies outside [window_start, window_end]. -/
def windowViolation (svc : HospitalService) (reqTime : Option Int) : Bool :=
  match svc.window_start_time, svc.window_end_time, reqTime with
  | some wsv, some wev, some t => decide (t < wsv) || decide (t > wev)
  | _, _, _ => false

/-- The row the INSERT creates for an ambulance service: scheduled_at
is utcnow + 15 minutes (views.py 1477-1482, 1519), status booked,
serial = booked count for the effective (current) day + 1, approx_time
the HH:MM part of the eta. -/
def ambBooking (svc : HospitalService) (uid : Nat) (reqDay : Option Nat) (nowMin : Nat)
    (notes : Option String) (newId : Nat) (db : List ServiceBooking) : ServiceBooking :=
  ⟨newId, uid, svc.hospital_user_id, svc.id, (nowMin + 15) / 1440,
    ((nowMin + 15 : Nat) : Int) % 1440, BStatus.booked,
    countBookedDay db svc.id (effectiveDay svc reqDay nowMin) + 1,
    some (((nowMin + 15 : Nat) : Int) % 1440), notes, 0⟩

/-- The row the INSERT creates for a non-ambulance service booking
whose allocated slot is t (views.py 1501-1510, 1519). -/
def slotBooking (svc : HospitalService) (uid : Nat) (reqDay : Option Nat) (nowMin : Nat)
    (notes : Option String) (newId : Nat) (db : List ServiceBooking) (t : Int) :
    ServiceBooking :=
  ⟨newId, uid, svc.hospital_user_id, svc.id, effectiveDay svc reqDay nowMin, t,
    BStatus.booked, countBookedDay db svc.id (effectiveDay svc reqDay nowMin) + 1,
    some t, notes, 0⟩

/-- book_service (views.py 1260-1519) on the non-crisis path, from the
point where the service row has been fetched.  Arguments: the service
row, the requester id, the optional date and time parts of
scheduled_at, the current UTC instant in minutes, the outcome of the
GET_LOCK call (True means acquired within the 10-second wait), the
notes field, the id the INSERT will assign, and the current table.
Guard order follows the source: available (1290), one-per-day (1326),
max_per_day capacity (1337), window enforcement (1383), then inside
the advisory-lock section the serial count (1418), the taken set
(1428) and either the ambulance shortcut (1477) or the nearest-slot
search (1484); the finally block releases the lock (1511) BEFORE the
INSERT runs (1519). -/
def book_service (svc : HospitalService) (uid : Nat) (reqDay : Option Nat)
    (reqTime : Option Int) (nowMin : Nat) (locked : Bool) (notes : Option String)
    (newId : Nat) (db : List ServiceBooking) :
    Outcome BookErr (List ServiceBooking × ServiceBooking) :=
  if svc.available ≠ 1 then ⟨Except.error BookErr.service_unavailable, []⟩
  else if countBookedUser db uid svc.id (effectiveDay svc reqDay nowMin) > 0 then
    ⟨Except.error BookErr.one_per_day, []⟩
  else if svc.max_per_day > 0 ∧
      countBookedDay db svc.id (effectiveDay svc reqDay nowMin) ≥ svc.max_per_day then
    ⟨Except.error BookErr.full, []⟩
  else if svc.isAmbulance = false ∧ windowViolation svc reqTime = true then
    ⟨Except.error BookErr.outside_window, []⟩
  else
    -- GET_LOCK happens here; its result is stored in locked and never
    -- consulted again (views.py 1406-1413).
    if svc.isAmbulance then
      ⟨Except.ok (db ++ [ambBooking svc uid reqDay nowMin notes newId db],
          ambBooking svc uid reqDay nowMin notes newId db),
        [Ev.lock locked, Ev.unlock, Ev.insert]⟩
    else
      match findNearestSlot (reqTime.getD (svc.window_start_time.getD 540))
          (svc.window_start_time.getD 0) (svc.window_end_time.getD 1439)
          (if svc.duration_minutes = 0 then 30 else svc.duration_minutes)
          (takenTimes db svc.id (effectiveDay svc reqDay nowMin)) with
      | none => ⟨Except.error BookErr.full, [Ev.lock locked, Ev.unlock]⟩
      | some t =>
        ⟨Except.ok (db ++ [slotBooking svc uid reqDay nowMin notes newId db t],
            slotBooking svc uid reqDay nowMin notes newId db t),
          [Ev.lock locked, Ev.unlock, Ev.insert]⟩

/-! ## Appointment booking -/

/-- Columns of a doctor_schedules row that book_appointment reads
(views.py 2288-2291); the list given to book_appointment is the query
result, ordered by start_time ascending.  max_per_day = 0 encodes
NULL. -/
structure DoctorSchedule where
  start_time : Int
  end_time : Int
  max_per_day : Nat
deriving DecidableEq, Repr

/-- A row of the appointments table; day, startHM and endHM encode the
date and time parts of starts_at and ends_at. -/
structure Appointment where
  id : Nat
  patient_user_id : Nat
  doctor_user_id : Nat
  hospital_user_id : Nat
  day : Nat
  startHM : Int
  endHM : Int
  status : BStatus
  serial : Nat
  approx_time : Option Int
deriving DecidableEq, Repr

/-- Error bodies book_appointment can return on the modelled path. -/
inductive ApptErr
  | no_schedule
  | invalid_range
  | outside_schedule
  | already_booked_same_day
  | capacity_full
deriving DecidableEq, Repr

/-- COUNT(*) of appointments for this doctor, hospital and day, with no
status filter at all (views.py 2354). -/
def countApptsDay (db : List Appointment) (d h day : Nat) : Nat :=
  (db.filter (fun a =>
    a.doctor_user_id == d && a.hospital_user_id == h && a.day == day)).length

/-- The duplicate check of book_appointment (views.py 2332-2335): any
appointment of this patient with this doctor and hospital whose
starts_at falls on the day, regardless of status. -/
def hasApptSameDay (db : List Appointment) (p d h day : Nat) : Bool :=
  db.any (fun a => a.patient_user_id == p && a.doctor_user_id == d &&
    a.hospital_user_id == h && a.day == day)

/-- The row the INSERT creates for an appointment (views.py 2357-2380):
status booked, serial = all-status day count + 1, approx_time = start
of the first schedule block plus (serial - 1) times the requested
duration (at least one minute), taken modulo one day as strftime does. -/
def apptRow (patient d h day : Nat) (stHM enHM : Int)
    (schedules : List DoctorSchedule) (newId : Nat) (db : List Appointment) :
    Appointment :=
  ⟨newId, patient, d, h, day, stHM, enHM, BStatus.booked, countApptsDay db d h day + 1,
    some ((match schedules with
      | [] => stHM
      | s :: _ => s.start_time
          + (((countApptsDay db d h day + 1 : Nat) : Int) - 1) * max 1 (enHM - stHM))
      % 1440)⟩

/-- book_appointment (views.py 2257-2417) on the MySQL engine, from the
point where membership and time parsing succeeded.  Guard order follows
the source: no_schedule (2295), invalid_range (2311), outside_schedule
(2321), already_booked_same_day (2336); then GET_LOCK (2349, its
outcome gotLock consulted only by the release in the finally block),
the all-status day count and capacity test (2354-2356), serial = count
+ 1 (2358), approx time = first block start + (serial - 1) * duration
taken modulo one day by strftime (2360-2376), the INSERT inside the
try block (2380), and the conditional RELEASE_LOCK in finally
(2381-2386). -/
def book_appointment (patient d h day : Nat) (stHM enHM : Int)
    (schedules : List DoctorSchedule) (gotLock : Bool) (newId : Nat)
    (db : List Appointment) : Outcome ApptErr (List Appointment × Appointment) :=
  if schedules.isEmpty then ⟨Except.error ApptErr.no_schedule, []⟩
  else if stHM ≥ enHM then ⟨Except.error ApptErr.invalid_range, []⟩
  else if ¬ (schedules.any (fun s =>
      decide (s.start_time ≤ stHM) && decide (enHM ≤ s.end_time))) = true then
    ⟨Except.error ApptErr.outside_schedule, []⟩
  else if hasApptSameDay db patient d h day = true then
    ⟨Except.error ApptErr.already_booked_same_day, []⟩
  else if ((schedules.map (fun s => s.max_per_day)).sum > 0 ∧
      countApptsDay db d h day ≥ (schedules.map (fun s => s.max_per_day)).sum) then
    ⟨Except.error ApptErr.capacity_full,
      [Ev.lock gotLock] ++ (if gotLock then [Ev.unlock] else [])⟩
  else
    ⟨Except.ok (db ++ [apptRow patient d h day stHM enHM schedules newId db],
        apptRow patient d h day stHM enHM schedules newId db),
      [Ev.lock gotLock, Ev.insert] ++ (if gotLock then [Ev.unlock] else [])⟩

/-! ## Lifecycle: requester cancellation and hide -/

/-- Error bodies of request_cancel_service_booking. -/
inductive CancelErr
  | not_found
  | forbidden
  | invalid_status
  | too_late_to_cancel
deriving DecidableEq, Repr

/-- The scheduled_at instant of a booking in seconds since the epoch
(stored with a zero seconds field). -/
def schedSec (b : ServiceBooking) : Int :=
  ((b.day : Int) * 1440 + b.timeHM) * 60

/-- Row-level effect of the UPDATE in request_cancel_service_booking
(views.py 1650): set status to cancelled on the rows matching id, user
and status booked, leave every other column as it was. -/
def cancelUpdate (bid uid : Nat) (b : ServiceBooking) : ServiceBooking :=
  if b.id == bid && b.user_id == uid && b.status == BStatus.booked then
    ⟨b.id, b.user_id, b.hospital_user_id, b.service_id, b.day, b.timeHM,
      BStatus.cancelled, b.serial, b.approx_time, b.notes, b.hidden_by_user⟩
  else b

/-- request_cancel_service_booking (views.py 1632-1661): fetch the row,
require ownership, require status booked, require scheduled_at at least
2 hours (7200 seconds) after now, then a conditional UPDATE to
cancelled on the rows matching id, user and status booked. -/
def request_cancel_service_booking (db : List ServiceBooking) (bid uid : Nat)
    (nowSec : Int) : Except CancelErr Unit × List ServiceBooking :=
  match db.find? (fun b => b.id == bid) with
  | none => (Except.error CancelErr.not_found, db)
  | some sb =>
    if sb.user_id ≠ uid then (Except.error CancelErr.forbidden, db)
    else if sb.status ≠ BStatus.booked then (Except.error CancelErr.invalid_status, db)
    else if schedSec sb - nowSec < 7200 then (Except.error CancelErr.too_late_to_cancel, db)
    else (Except.ok (), db.map (cancelUpdate bid uid))

/-- Error bodies of hide_service_booking. -/
inductive HideErr
  | not_found
  | forbidden
deriving DecidableEq, Repr

/-- Row-level effect of the UPDATE in hide_service_booking (views.py
1790): set hidden_by_user to 1 on the rows matching id and user_id,
leave every other column as it was. -/
def hideUpdate (bid uid : Nat) (b : ServiceBooking) : ServiceBooking :=
  if b.id == bid && b.user_id == uid then
    ⟨b.id, b.user_id, b.hospital_user_id, b.service_id, b.day, b.timeHM,
      b.status, b.serial, b.approx_time, b.notes, 1⟩
  else b

/-- hide_service_booking (views.py 1781-1793): fetch the row, require
ownership, then UPDATE hidden_by_user = 1 on the matching rows. -/
def hide_service_booking (db : List ServiceBooking) (bid uid : Nat) :
    Except HideErr Unit × List ServiceBooking :=
  match db.find? (fun b => b.id == bid) with
  | none => (Except.error HideErr.not_found, db)
  | some sb =>
    if sb.user_id ≠ uid then (Except.error HideErr.forbidden, db)
    else (Except.ok (), db.map (hideUpdate bid uid))

/-! ## Trace predicates for the lock protocol -/

/-- Whether the advisory lock is held after replaying a trace from the
given holding state. -/
def heldAtEnd : List Ev → Bool → Bool
  | [], h => h
  | Ev.lock a :: tr, _ => heldAtEnd tr a
  | Ev.unlock :: tr, _ => heldAtEnd tr false
  | Ev.insert :: tr, h => heldAtEnd tr h

/-- Whether every insert event of a trace occurs while the lock is
held. -/
def insertsInsideLock : List Ev → Bool → Bool
  | [], _ => true
  | Ev.lock a :: tr, _ => insertsInsideLock tr a
  | Ev.unlock :: tr, _ => insertsInsideLock tr false
  | Ev.insert :: tr, h => h && insertsInsideLock tr h

/-! ## Shared counting lemmas -/

theorem countBookedDay_append_le (db : List ServiceBooking) (bk : ServiceBooking)
    (s day : Nat) :
    countBookedDay (db ++ [bk]) s day ≤ countBookedDay db s day + 1 := by
  simp only [countBookedDay, List.filter_append, List.length_append]
  have h := List.length_filter_le
    (fun b => b.service_id == s && b.day == day && b.status == BStatus.booked) [bk]
  simp only [List.length_cons, List.length_nil] at h
  omega

theorem countBookedDay_eq_length (db : List ServiceBooking) (s day : Nat) :
    countBookedDay db s day = (bookedSerials db s day).length := by
  simp [countBookedDay, bookedSerials]

theorem bookedSerials_append (db : List ServiceBooking) (bk : ServiceBooking)
    (s day : Nat) (hs : bk.service_id = s) (hd : bk.day = day)
    (hb : bk.status = BStatus.booked) :
    bookedSerials (db ++ [bk]) s day = bookedSerials db s day ++ [bk.serial] := by
  simp [bookedSerials, List.filter_append, hs, hd, hb]

/-! ## Claims about the slot allocator -/

/-- C2: the inline nearest-slot search of book_service clamps the
desired time into [windowStart, windowEnd], probes candidates at
distances 0, +step, -step, +2*step, -2*step, ... from the clamped
desired time preferring the later candidate at equal distance, and
returns the first probed candidate that is inside the window and not in
the taken set; it returns none (which book_service reports as the full
error) exactly when every probed in-window candidate is taken, and a
returned slot is never in the taken set and always lies within the
window.  Determinism holds by construction: findNearestSlot is a pure
function of (desired, window, step, taken). -/
theorem C2_findNearestSlot_spec (desired ws we : Int) (step : Nat) (taken : List Int)
    (hws : 0 ≤ ws) (hwe : we < 1440) :
    (findNearestSlot desired ws we step taken
        = (probeList desired ws we step).find? (fun c => decide (c ∉ taken)))
    ∧ (∀ t, findNearestSlot desired ws we step taken = some t →
        t ∉ taken ∧ ws ≤ t ∧ t ≤ we)
    ∧ (findNearestSlot desired ws we step taken = none ↔
        ∀ c ∈ probeList desired ws we step, c ∈ taken) := by
  refine ⟨findNearestSlot_eq_find? desired ws we step taken, ?_, ?_⟩
  · intro t ht
    rw [findNearestSlot_eq_find?] at ht
    have hmem := List.mem_of_find?_eq_some ht
    have hp := List.find?_some ht
    simp only [decide_eq_true_eq] at hp
    have hb := mem_probeList_bounds desired ws we t step hws hwe hmem
    exact ⟨hp, hb.1, hb.2⟩
  · rw [findNearestSlot_eq_find?, List.find?_eq_none]
    constructor
    · intro hall c hc
      have := hall c hc
      simpa using this
    · intro hall c hc
      simp [hall c hc]

/-- C2 witness: the characterization instantiated at the concrete
window 09:00-12:00, step 30, taken {09:00, 09:30, 10:00}, desired
09:15. -/
theorem C2_witness :
    (0 : Int) ≤ 540 ∧ (720 : Int) < 1440 ∧
    findNearestSlot 555 540 720 30 [540, 570, 600]
      = (probeList 555 540 720 30).find? (fun c => decide (c ∉ [540, 570, 600])) :=
  ⟨by decide, by decide,
    (C2_findNearestSlot_spec 555 540 720 30 [540, 570, 600] (by decide) (by decide)).1⟩

/-- C3 counterexample: on window 09:00-12:00, step 30, taken
{09:00, 09:30, 10:00}, desired 09:15, the search does NOT allocate
10:30 (630 minutes): the claim expected the contiguous taken block to
be exhausted, but the probe sequence is anchored at the desired time
itself, which is free. -/
theorem C3_counterexample :
    findNearestSlot 555 540 720 30 [540, 570, 600] ≠ some 630 := by decide

/-- C3 amended: on that input the search allocates 09:15 (555 minutes),
the desired time itself, because probes start at the clamped desired
time rather than on the window-aligned slot grid, and 09:15 is not in
the taken set. -/
theorem C3_amended :
    findNearestSlot 555 540 720 30 [540, 570, 600] = some 555 := by decide

/-! ## Inversion of a successful book_service call -/

theorem book_service_ok_inv (svc : HospitalService) (uid : Nat) (reqDay : Option Nat)
    (reqTime : Option Int) (nowMin : Nat) (locked : Bool) (notes : Option String)
    (newId : Nat) (db db2 : List ServiceBooking) (bk : ServiceBooking)
    (hok : (book_service svc uid reqDay reqTime nowMin locked notes newId db).result
      = Except.ok (db2, bk)) :
    db2 = db ++ [bk]
    ∧ bk.serial = countBookedDay db svc.id (effectiveDay svc reqDay nowMin) + 1
    ∧ bk.status = BStatus.booked
    ∧ bk.service_id = svc.id
    ∧ bk.user_id = uid
    ∧ (svc.isAmbulance = false → bk.day = effectiveDay svc reqDay nowMin)
    ∧ (0 < svc.max_per_day →
        countBookedDay db svc.id (effectiveDay svc reqDay nowMin) < svc.max_per_day)
    ∧ countBookedUser db uid svc.id (effectiveDay svc reqDay nowMin) = 0 := by
  unfold book_service at hok
  split at hok
  · exact absurd hok (by simp)
  split at hok
  · exact absurd hok (by simp)
  split at hok
  · exact absurd hok (by simp)
  split at hok
  · exact absurd hok (by simp)
  rename_i hav hu hcap hwin
  split at hok
  · rename_i hamb
    have hpair := Except.ok.inj hok
    rw [Prod.mk.injEq] at hpair
    obtain ⟨hdb, hbk⟩ := hpair
    subst hbk
    refine ⟨hdb.symm, rfl, rfl, rfl, rfl, ?_, ?_, ?_⟩
    · intro hfalse; rw [hamb] at hfalse; cases hfalse
    · intro hpos
      by_contra hge
      exact hcap ⟨hpos, by omega⟩
    · omega
  · rename_i hamb
    split at hok
    · exact absurd hok (by simp)
    · rename_i t hfind
      have hpair := Except.ok.inj hok
      rw [Prod.mk.injEq] at hpair
      obtain ⟨hdb, hbk⟩ := hpair
      subst hbk
      refine ⟨hdb.symm, rfl, rfl, rfl, rfl, fun _ => rfl, ?_, ?_⟩
      · intro hpos
        by_contra hge
        exact hcap ⟨hpos, by omega⟩
      · omega

/-! ## C1: capacity invariant -/

/-- C1 counterexample: a provider/day with max_per_day = 1 already has
one active (confirmed) booking, so CountActive as the spec defines it
equals the limit; the claim says the attempt must fail with the full
error and insert nothing, but book_service succeeds and inserts,
leaving two active bookings: the code counts only status booked for
capacity (views.py 1347), not booked and confirmed. -/
theorem C1_counterexample :
    countActiveSpec
        [⟨1, 7, 2, 1, 20000, 540, BStatus.confirmed, 1, some 540, none, 0⟩] 1 20000 = 1
    ∧ (book_service ⟨1, 2, 1, 1, some 540, some 720, 30, false⟩ 9 (some 20000)
        (some 555) 0 true none 2
        [⟨1, 7, 2, 1, 20000, 540, BStatus.confirmed, 1, some 540, none, 0⟩]).result
      = Except.ok
          ([⟨1, 7, 2, 1, 20000, 540, BStatus.confirmed, 1, some 540, none, 0⟩,
            ⟨2, 9, 2, 1, 20000, 555, BStatus.booked, 1, some 555, none, 0⟩],
           ⟨2, 9, 2, 1, 20000, 555, BStatus.booked, 1, some 555, none, 0⟩)
    ∧ countActiveSpec
        [⟨1, 7, 2, 1, 20000, 540, BStatus.confirmed, 1, some 540, none, 0⟩,
         ⟨2, 9, 2, 1, 20000, 555, BStatus.booked, 1, some 555, none, 0⟩] 1 20000 = 2 := by
  decide

/-- C1 amended: the capacity count book_service uses is the number of
rows with status booked only (a confirmed booking no longer counts
against max_per_day).  For a service with max_per_day = N > 0, an
otherwise-valid attempt (service available, one-per-day passes) made
when the booked count is at least N fails with the full error and
inserts no row, and a successful attempt never pushes the booked count
for that service and effective day past N. -/
theorem C1_amended (svc : HospitalService) (uid : Nat) (reqDay : Option Nat)
    (reqTime : Option Int) (nowMin : Nat) (locked : Bool) (notes : Option String)
    (newId : Nat) (db : List ServiceBooking)
    (hpos : 0 < svc.max_per_day) :
    (svc.available = 1 →
      countBookedUser db uid svc.id (effectiveDay svc reqDay nowMin) = 0 →
      svc.max_per_day ≤ countBookedDay db svc.id (effectiveDay svc reqDay nowMin) →
      (book_service svc uid reqDay reqTime nowMin locked notes newId db).result
        = Except.error BookErr.full)
    ∧ (∀ db2 bk,
        (book_service svc uid reqDay reqTime nowMin locked notes newId db).result
          = Except.ok (db2, bk) →
        countBookedDay db2 svc.id (effectiveDay svc reqDay nowMin) ≤ svc.max_per_day) := by
  constructor
  · intro hav hu hcap
    unfold book_service
    rw [if_neg (fun h => h hav), if_neg (by omega), if_pos ⟨hpos, hcap⟩]
  · intro db2 bk hok
    obtain ⟨hdb, _, _, _, _, _, hlt, _⟩ :=
      book_service_ok_inv svc uid reqDay reqTime nowMin locked notes newId db db2 bk hok
    have hle := countBookedDay_append_le db bk svc.id (effectiveDay svc reqDay nowMin)
    rw [hdb]
    have := hlt hpos
    omega

/-- C1 witness: with max_per_day = 1 and one booked row already
present, the attempt fails with full; the bound on a successful insert
is witnessed on the empty table. -/
theorem C1_witness :
    0 < (1 : Nat)
    ∧ (book_service ⟨1, 2, 1, 1, some 540, some 720, 30, false⟩ 9 (some 20000)
        (some 555) 0 true none 2
        [⟨1, 7, 2, 1, 20000, 540, BStatus.booked, 1, some 540, none, 0⟩]).result
      = Except.error BookErr.full
    ∧ countBookedDay
        [⟨1, 9, 2, 1, 20000, 555, BStatus.booked, 1, some 555, none, 0⟩] 1 20000 ≤ 1 :=
  ⟨by decide,
   (C1_amended ⟨1, 2, 1, 1, some 540, some 720, 30, false⟩ 9 (some 20000) (some 555)
      0 true none 2
      [⟨1, 7, 2, 1, 20000, 540, BStatus.booked, 1, some 540, none, 0⟩] (by decide)).1
      rfl (by decide) (by decide),
   (C1_amended ⟨1, 2, 1, 1, some 540, some 720, 30, false⟩ 9 (some 20000) (some 555)
      0 true none 1 [] (by decide)).2
      [⟨1, 9, 2, 1, 20000, 555, BStatus.booked, 1, some 555, none, 0⟩]
      ⟨1, 9, 2, 1, 20000, 555, BStatus.booked, 1, some 555, none, 0⟩ (by decide)⟩

/-! ## C4: lock-timeout behavior -/

theorem book_service_result_locked_indep (svc : HospitalService) (uid : Nat)
    (reqDay : Option Nat) (reqTime : Option Int) (nowMin : Nat)
    (notes : Option String) (newId : Nat) (db : List ServiceBooking) (l1 l2 : Bool) :
    (book_service svc uid reqDay reqTime nowMin l1 notes newId db).result
      = (book_service svc uid reqDay reqTime nowMin l2 notes newId db).result := by
  unfold book_service
  split_ifs <;> try rfl
  · cases hf : findNearestSlot (reqTime.getD (svc.window_start_time.getD 540))
        (svc.window_start_time.getD 0) (svc.window_end_time.getD 1439) 30
        (takenTimes db svc.id (effectiveDay svc reqDay nowMin)) <;> rfl
  · cases hf : findNearestSlot (reqTime.getD (svc.window_start_time.getD 540))
        (svc.window_start_time.getD 0) (svc.window_end_time.getD 1439)
        svc.duration_minutes
        (takenTimes db svc.id (effectiveDay svc reqDay nowMin)) <;> rfl

theorem book_appointment_result_lock_indep (patient d h day : Nat) (stHM enHM : Int)
    (schedules : List DoctorSchedule) (newId : Nat) (db : List Appointment)
    (g1 g2 : Bool) :
    (book_appointment patient d h day stHM enHM schedules g1 newId db).result
      = (book_appointment patient d h day stHM enHM schedules g2 newId db).result := by
  unfold book_appointment
  split_ifs <;> rfl

/-- C4 counterexample: with the advisory lock NOT acquired (GET_LOCK
timed out, locked = false), book_service does not fail with any
contention error: it proceeds with the allocation and inserts the
booking.  No contention error value or HTTP 409 response exists in
either endpoint (views.py 1406-1413 computes locked and never reads
it; 2353 proceeds best-effort). -/
theorem C4_counterexample :
    (book_service ⟨1, 2, 1, 0, some 540, some 720, 30, false⟩ 9 (some 20000)
        (some 555) 0 false none 1 []).result
      = Except.ok ([⟨1, 9, 2, 1, 20000, 555, BStatus.booked, 1, some 555, none, 0⟩],
          ⟨1, 9, 2, 1, 20000, 555, BStatus.booked, 1, some 555, none, 0⟩)
    ∧ (book_service ⟨1, 2, 1, 0, some 540, some 720, 30, false⟩ 9 (some 20000)
        (some 555) 0 false none 1 []).trace
      = [Ev.lock false, Ev.unlock, Ev.insert] := by decide

/-- C4 amended: when the advisory lock cannot be acquired within the
10-second wait, both book_service and book_appointment proceed with the
allocation best-effort rather than failing: the result of either
endpoint is identical whether or not the lock was acquired, and no
contention error is ever surfaced. -/
theorem C4_amended (svc : HospitalService) (uid : Nat) (reqDay : Option Nat)
    (reqTime : Option Int) (nowMin : Nat) (notes : Option String) (newId : Nat)
    (db : List ServiceBooking) (patient d h day : Nat) (stHM enHM : Int)
    (schedules : List DoctorSchedule) (newId2 : Nat) (adb : List Appointment) :
    (book_service svc uid reqDay reqTime nowMin false notes newId db).result
      = (book_service svc uid reqDay reqTime nowMin true notes newId db).result
    ∧ (book_appointment patient d h day stHM enHM schedules false newId2 adb).result
      = (book_appointment patient d h day stHM enHM schedules true newId2 adb).result :=
  ⟨book_service_result_locked_indep svc uid reqDay reqTime nowMin notes newId db false true,
   book_appointment_result_lock_indep patient d h day stHM enHM schedules newId2 adb false true⟩

/-! ## C5: one-per-day / duplicate booking rule -/

/-- C5 counterexample, both halves of the claim.  Appointments: a
patient whose only appointment with the doctor that day is CANCELLED (a
terminal status) is still rejected with already_booked_same_day,
because the duplicate query has no status filter (views.py 2332-2335).
Services: a requester whose booking with the service that day is
CONFIRMED (active per the claim) is NOT rejected — the service check
counts only status booked (views.py 1330) — and a second booking is
created. -/
theorem C5_counterexample :
    (book_appointment 9 3 2 20000 600 630 [⟨540, 720, 0⟩] true 2
        [⟨1, 9, 3, 2, 20000, 540, 570, BStatus.cancelled, 1, some 540⟩]).result
      = Except.error ApptErr.already_booked_same_day
    ∧ (book_service ⟨1, 2, 1, 0, some 540, some 720, 30, false⟩ 9 (some 20000)
        (some 555) 0 true none 2
        [⟨1, 9, 2, 1, 20000, 540, BStatus.confirmed, 1, some 540, none, 0⟩]).result
      = Except.ok
          ([⟨1, 9, 2, 1, 20000, 540, BStatus.confirmed, 1, some 540, none, 0⟩,
            ⟨2, 9, 2, 1, 20000, 555, BStatus.booked, 1, some 555, none, 0⟩],
           ⟨2, 9, 2, 1, 20000, 555, BStatus.booked, 1, some 555, none, 0⟩) := by decide

/-- C5 amended: for services the duplicate check counts only the
rows of the requester with status booked for that service and day
— when that count is positive (and the service is available) the
attempt fails with one_per_day before any lock or insert, and when it
is zero (whether prior bookings are confirmed or terminal) the
one_per_day error is never returned.  For appointments, any existing
row of the patient with that doctor and hospital on that day —
regardless of status, including cancelled and declined — causes the
already_booked_same_day error (once the schedule guards pass).  In
either error case no row is inserted and existing rows are untouched
(the endpoints only ever append). -/
theorem C5_amended (svc : HospitalService) (uid : Nat) (reqDay : Option Nat)
    (reqTime : Option Int) (nowMin : Nat) (locked : Bool) (notes : Option String)
    (newId : Nat) (db : List ServiceBooking) (patient d h day : Nat) (stHM enHM : Int)
    (schedules : List DoctorSchedule) (gotLock : Bool) (newId2 : Nat)
    (adb : List Appointment) :
    (svc.available = 1 →
      0 < countBookedUser db uid svc.id (effectiveDay svc reqDay nowMin) →
      (book_service svc uid reqDay reqTime nowMin locked notes newId db).result
        = Except.error BookErr.one_per_day)
    ∧ (countBookedUser db uid svc.id (effectiveDay svc reqDay nowMin) = 0 →
      (book_service svc uid reqDay reqTime nowMin locked notes newId db).result
        ≠ Except.error BookErr.one_per_day)
    ∧ (schedules.isEmpty = false →
      stHM < enHM →
      (schedules.any (fun s =>
        decide (s.start_time ≤ stHM) && decide (enHM ≤ s.end_time))) = true →
      hasApptSameDay adb patient d h day = true →
      (book_appointment patient d h day stHM enHM schedules gotLock newId2 adb).result
        = Except.error ApptErr.already_booked_same_day) := by
  refine ⟨?_, ?_, ?_⟩
  · intro hav hu
    unfold book_service
    rw [if_neg (fun hcon => hcon hav), if_pos hu]
  · intro hu
    unfold book_service
    split_ifs <;> try simp
    · omega
    · cases hf : findNearestSlot (reqTime.getD (svc.window_start_time.getD 540))
          (svc.window_start_time.getD 0) (svc.window_end_time.getD 1439) 30
          (takenTimes db svc.id (effectiveDay svc reqDay nowMin)) <;> simp [hf]
    · cases hf : findNearestSlot (reqTime.getD (svc.window_start_time.getD 540))
          (svc.window_start_time.getD 0) (svc.window_end_time.getD 1439)
          svc.duration_minutes
          (takenTimes db svc.id (effectiveDay svc reqDay nowMin)) <;> simp [hf]
  · intro hne hlt hins hdup
    unfold book_appointment
    rw [if_neg (by simp [hne]), if_neg (by omega), if_neg (by simp [hins]), if_pos hdup]

/-- C5 witness: a booked row by the same requester triggers
one_per_day; with no booked rows the error never occurs; a cancelled
appointment still triggers already_booked_same_day. -/
theorem C5_witness :
    (book_service ⟨1, 2, 1, 0, some 540, some 720, 30, false⟩ 9 (some 20000)
        (some 555) 0 true none 2
        [⟨1, 9, 2, 1, 20000, 540, BStatus.booked, 1, some 540, none, 0⟩]).result
      = Except.error BookErr.one_per_day
    ∧ (book_service ⟨1, 2, 1, 0, some 540, some 720, 30, false⟩ 9 (some 20000)
        (some 555) 0 true none 1 []).result ≠ Except.error BookErr.one_per_day
    ∧ (book_appointment 9 3 2 20000 600 630 [⟨540, 720, 0⟩] true 2
        [⟨1, 9, 3, 2, 20000, 540, 570, BStatus.cancelled, 1, some 540⟩]).result
      = Except.error ApptErr.already_booked_same_day :=
  ⟨(C5_amended ⟨1, 2, 1, 0, some 540, some 720, 30, false⟩ 9 (some 20000) (some 555)
      0 true none 2 [⟨1, 9, 2, 1, 20000, 540, BStatus.booked, 1, some 540, none, 0⟩]
      0 0 0 0 0 0 [] true 0 []).1 rfl (by decide),
   (C5_amended ⟨1, 2, 1, 0, some 540, some 720, 30, false⟩ 9 (some 20000) (some 555)
      0 true none 1 [] 0 0 0 0 0 0 [] true 0 []).2.1 (by decide),
   (C5_amended ⟨0, 0, 0, 0, none, none, 0, false⟩ 0 none none 0 true none 0 []
      9 3 2 20000 600 630 [⟨540, 720, 0⟩] true 2
      [⟨1, 9, 3, 2, 20000, 540, 570, BStatus.cancelled, 1, some 540⟩]).2.2
      (by decide) (by decide) (by decide) (by decide)⟩

/-! ## C6: serial numbers -/

/-- C6 counterexample: with one confirmed booking (serial 1) for the
service and day, CountActive as the spec defines it is 1, so the claim
requires the next successful allocation to get serial 2; the code
recounts only status booked (views.py 1420), gets 0, assigns serial 1,
and the serials for the provider/day are then [1, 1] — a duplicate,
not a contiguous 1-based sequence. -/
theorem C6_counterexample :
    countActiveSpec
        [⟨1, 7, 2, 1, 20000, 540, BStatus.confirmed, 1, some 540, none, 0⟩] 1 20000
        + 1 = 2
    ∧ (book_service ⟨1, 2, 1, 0, some 540, some 720, 30, false⟩ 9 (some 20000)
        (some 555) 0 true none 2
        [⟨1, 7, 2, 1, 20000, 540, BStatus.confirmed, 1, some 540, none, 0⟩]).result
      = Except.ok
          ([⟨1, 7, 2, 1, 20000, 540, BStatus.confirmed, 1, some 540, none, 0⟩,
            ⟨2, 9, 2, 1, 20000, 555, BStatus.booked, 1, some 555, none, 0⟩],
           ⟨2, 9, 2, 1, 20000, 555, BStatus.booked, 1, some 555, none, 0⟩)
    ∧ allSerials
        [⟨1, 7, 2, 1, 20000, 540, BStatus.confirmed, 1, some 540, none, 0⟩,
         ⟨2, 9, 2, 1, 20000, 555, BStatus.booked, 1, some 555, none, 0⟩] 1 20000
      = [1, 1] := by decide

/-- C6 amended: every successful service allocation assigns serial =
(count of rows with status booked for that service and effective day)
+ 1, a count re-read inside the lock section rather than the CountActive
of the spec over booked and confirmed; consequently, as long as every
existing row for the provider/day is still booked (no confirmations,
cancellations or declines have happened), the serials of successively
created bookings form the contiguous sequence 1, 2, ..., k+1.  For
appointments the count feeding serial = count + 1 is the all-status
day count (views.py 2354-2358). -/
theorem C6_amended (svc : HospitalService) (uid : Nat) (reqDay : Option Nat)
    (reqTime : Option Int) (nowMin : Nat) (locked : Bool) (notes : Option String)
    (newId : Nat) (db db2 : List ServiceBooking) (bk : ServiceBooking) (k : Nat)
    (hok : (book_service svc uid reqDay reqTime nowMin locked notes newId db).result
      = Except.ok (db2, bk))
    (hamb : svc.isAmbulance = false)
    (hser : bookedSerials db svc.id (effectiveDay svc reqDay nowMin) = List.range' 1 k) :
    bk.serial = countBookedDay db svc.id (effectiveDay svc reqDay nowMin) + 1
    ∧ bk.serial = k + 1
    ∧ bookedSerials db2 svc.id (effectiveDay svc reqDay nowMin) = List.range' 1 (k + 1) := by
  obtain ⟨hdb, hserial, hstat, hsvc, _, hday, _, _⟩ :=
    book_service_ok_inv svc uid reqDay reqTime nowMin locked notes newId db db2 bk hok
  have hcnt : countBookedDay db svc.id (effectiveDay svc reqDay nowMin) = k := by
    rw [countBookedDay_eq_length, hser, List.length_range']
  refine ⟨hserial, by omega, ?_⟩
  rw [hdb, bookedSerials_append db bk svc.id (effectiveDay svc reqDay nowMin)
    hsvc (hday hamb) hstat, hser, hserial, hcnt, List.range'_concat]
  simp [Nat.add_comm]

/-- C6 witness: booking into an empty table yields serial 1 and the
serial list [1]. -/
theorem C6_witness :
    (⟨1, 9, 2, 1, 20000, 555, BStatus.booked, 1, some 555, none, 0⟩ :
      ServiceBooking).serial = countBookedDay ([] : List ServiceBooking) 1 20000 + 1
    ∧ (⟨1, 9, 2, 1, 20000, 555, BStatus.booked, 1, some 555, none, 0⟩ :
      ServiceBooking).serial = 0 + 1
    ∧ bookedSerials [⟨1, 9, 2, 1, 20000, 555, BStatus.booked, 1, some 555, none, 0⟩]
        1 20000 = List.range' 1 (0 + 1) :=
  C6_amended ⟨1, 2, 1, 0, some 540, some 720, 30, false⟩ 9 (some 20000) (some 555)
    0 true none 1 [] [⟨1, 9, 2, 1, 20000, 555, BStatus.booked, 1, some 555, none, 0⟩]
    ⟨1, 9, 2, 1, 20000, 555, BStatus.booked, 1, some 555, none, 0⟩ 0
    (by decide) rfl (by decide)

/-! ## C7: lock release and insert ordering -/

/-- C7 counterexample: on a successful book_service call the event
trace is lock, release, insert — the try/finally around the allocation
(views.py 1363-1516) releases the advisory lock, and only then does
the INSERT at line 1519 run, so the insert is NOT performed while the
lock is held. -/
theorem C7_counterexample :
    (book_service ⟨1, 2, 1, 0, some 540, some 720, 30, false⟩ 9 (some 20000)
        (some 555) 0 true none 1 []).trace
      = [Ev.lock true, Ev.unlock, Ev.insert]
    ∧ insertsInsideLock [Ev.lock true, Ev.unlock, Ev.insert] false = false := by decide

/-- C7 amended: in both endpoints the lock is released on every exit
path after the acquisition attempt (the trace never ends with the lock
held); in book_appointment the INSERT does run inside the critical
section whenever the lock was acquired, but in book_service the INSERT
always runs after the release, outside the critical section. -/
theorem C7_amended (svc : HospitalService) (uid : Nat) (reqDay : Option Nat)
    (reqTime : Option Int) (nowMin : Nat) (locked : Bool) (notes : Option String)
    (newId : Nat) (db : List ServiceBooking) (patient d h day : Nat) (stHM enHM : Int)
    (schedules : List DoctorSchedule) (gotLock : Bool) (newId2 : Nat)
    (adb : List Appointment) :
    heldAtEnd (book_service svc uid reqDay reqTime nowMin locked notes newId db).trace
        false = false
    ∧ (Ev.insert ∈ (book_service svc uid reqDay reqTime nowMin locked notes newId db).trace →
      insertsInsideLock
        (book_service svc uid reqDay reqTime nowMin locked notes newId db).trace
        false = false)
    ∧ heldAtEnd (book_appointment patient d h day stHM enHM schedules gotLock
        newId2 adb).trace false = false
    ∧ (gotLock = true →
      insertsInsideLock (book_appointment patient d h day stHM enHM schedules gotLock
        newId2 adb).trace false = true) := by
  refine ⟨?_, ?_, ?_, ?_⟩
  · unfold book_service
    split_ifs <;> try (cases locked <;> rfl)
    · cases hf : findNearestSlot (reqTime.getD (svc.window_start_time.getD 540))
          (svc.window_start_time.getD 0) (svc.window_end_time.getD 1439) 30
          (takenTimes db svc.id (effectiveDay svc reqDay nowMin)) <;>
        cases locked <;> rfl
    · cases hf : findNearestSlot (reqTime.getD (svc.window_start_time.getD 540))
          (svc.window_start_time.getD 0) (svc.window_end_time.getD 1439)
          svc.duration_minutes
          (takenTimes db svc.id (effectiveDay svc reqDay nowMin)) <;>
        cases locked <;> rfl
  · unfold book_service
    split_ifs
    · intro hmem; exact absurd hmem (by simp)
    · intro hmem; exact absurd hmem (by simp)
    · intro hmem; exact absurd hmem (by simp)
    · intro hmem; exact absurd hmem (by simp)
    · intro hmem; cases locked <;> rfl
    · cases hf : findNearestSlot (reqTime.getD (svc.window_start_time.getD 540))
          (svc.window_start_time.getD 0) (svc.window_end_time.getD 1439) 30
          (takenTimes db svc.id (effectiveDay svc reqDay nowMin))
      · intro hmem; exact absurd hmem (by simp)
      · intro hmem; cases locked <;> rfl
    · cases hf : findNearestSlot (reqTime.getD (svc.window_start_time.getD 540))
          (svc.window_start_time.getD 0) (svc.window_end_time.getD 1439)
          svc.duration_minutes
          (takenTimes db svc.id (effectiveDay svc reqDay nowMin))
      · intro hmem; exact absurd hmem (by simp)
      · intro hmem; cases locked <;> rfl
  · cases gotLock <;> (unfold book_appointment; split_ifs <;> first | rfl | simp_all)
  · intro hg
    subst hg
    unfold book_appointment
    split_ifs <;> rfl

/-- C7 witness: concrete successful calls of both endpoints with the
lock acquired. -/
theorem C7_witness :
    heldAtEnd (book_service ⟨1, 2, 1, 0, some 540, some 720, 30, false⟩ 9 (some 20000)
        (some 555) 0 true none 1 []).trace false = false
    ∧ insertsInsideLock (book_service ⟨1, 2, 1, 0, some 540, some 720, 30, false⟩ 9
        (some 20000) (some 555) 0 true none 1 []).trace false = false
    ∧ heldAtEnd (book_appointment 9 3 2 20000 600 630 [⟨540, 720, 0⟩] true 1 []).trace
        false = false
    ∧ insertsInsideLock (book_appointment 9 3 2 20000 600 630 [⟨540, 720, 0⟩] true 1
        []).trace false = true :=
  ⟨(C7_amended ⟨1, 2, 1, 0, some 540, some 720, 30, false⟩ 9 (some 20000) (some 555)
      0 true none 1 [] 9 3 2 20000 600 630 [⟨540, 720, 0⟩] true 1 []).1,
   (C7_amended ⟨1, 2, 1, 0, some 540, some 720, 30, false⟩ 9 (some 20000) (some 555)
      0 true none 1 [] 9 3 2 20000 600 630 [⟨540, 720, 0⟩] true 1 []).2.1 (by decide),
   (C7_amended ⟨1, 2, 1, 0, some 540, some 720, 30, false⟩ 9 (some 20000) (some 555)
      0 true none 1 [] 9 3 2 20000 600 630 [⟨540, 720, 0⟩] true 1 []).2.2.1,
   (C7_amended ⟨1, 2, 1, 0, some 540, some 720, 30, false⟩ 9 (some 20000) (some 555)
      0 true none 1 [] 9 3 2 20000 600 630 [⟨540, 720, 0⟩] true 1 []).2.2.2 rfl⟩

/-! ## C8: requester cancellation cutoff -/

/-- C8 counterexample: a CONFIRMED booking whose scheduled time is far
in the future cannot be cancelled by its owner — the code requires
status booked exactly (views.py 1640), not booked-or-confirmed as the
claim states — and the row is unchanged. -/
theorem C8_counterexample :
    request_cancel_service_booking
        [⟨1, 9, 2, 1, 20000, 600, BStatus.confirmed, 1, some 600, none, 0⟩] 1 9 0
      = (Except.error CancelErr.invalid_status,
         [⟨1, 9, 2, 1, 20000, 600, BStatus.confirmed, 1, some 600, none, 0⟩]) := by
  decide

/-- C8 amended: a requester may cancel their own service booking only
while its status is exactly booked (a confirmed booking yields
invalid_status with the table unchanged), and only when the scheduled
time is at least 2 hours away: strictly less than 7200 seconds yields
too_late_to_cancel with the table unchanged, exactly 7200 seconds is
permitted and sets the status to cancelled. -/
theorem C8_amended (db : List ServiceBooking) (bid uid : Nat) (nowSec : Int)
    (sb : ServiceBooking) (hfind : db.find? (fun b => b.id == bid) = some sb)
    (howner : sb.user_id = uid) :
    (sb.status = BStatus.booked → 7200 ≤ schedSec sb - nowSec →
      request_cancel_service_booking db bid uid nowSec
        = (Except.ok (), db.map (cancelUpdate bid uid)))
    ∧ (sb.status = BStatus.booked → schedSec sb - nowSec < 7200 →
      request_cancel_service_booking db bid uid nowSec
        = (Except.error CancelErr.too_late_to_cancel, db))
    ∧ (sb.status ≠ BStatus.booked →
      request_cancel_service_booking db bid uid nowSec
        = (Except.error CancelErr.invalid_status, db)) := by
  unfold request_cancel_service_booking
  rw [hfind]
  dsimp only
  refine ⟨?_, ?_, ?_⟩
  · intro hst hcut
    rw [if_neg (fun hcon => hcon howner), if_neg (fun hcon => hcon hst),
      if_neg (by omega)]
  · intro hst hcut
    rw [if_neg (fun hcon => hcon howner), if_neg (fun hcon => hcon hst), if_pos hcut]
  · intro hst
    rw [if_neg (fun hcon => hcon howner), if_pos hst]

/-- C8 witness: the boundary cases.  The booking is scheduled at
02:00:00 of day 0 (7200 seconds): cancelling at now = 0 (exactly 2h
before) succeeds and marks the row cancelled; cancelling at now = 1
(1h59m59s before) fails with too_late_to_cancel and leaves the row
unchanged. -/
theorem C8_witness :
    request_cancel_service_booking
        [⟨1, 9, 2, 1, 0, 120, BStatus.booked, 1, some 120, none, 0⟩] 1 9 0
      = (Except.ok (), [⟨1, 9, 2, 1, 0, 120, BStatus.cancelled, 1, some 120, none, 0⟩])
    ∧ request_cancel_service_booking
        [⟨1, 9, 2, 1, 0, 120, BStatus.booked, 1, some 120, none, 0⟩] 1 9 1
      = (Except.error CancelErr.too_late_to_cancel,
         [⟨1, 9, 2, 1, 0, 120, BStatus.booked, 1, some 120, none, 0⟩]) :=
  ⟨((C8_amended [⟨1, 9, 2, 1, 0, 120, BStatus.booked, 1, some 120, none, 0⟩] 1 9 0
      ⟨1, 9, 2, 1, 0, 120, BStatus.booked, 1, some 120, none, 0⟩ (by decide) rfl).1
      rfl (by decide)).trans (by decide),
   ((C8_amended [⟨1, 9, 2, 1, 0, 120, BStatus.booked, 1, some 120, none, 0⟩] 1 9 1
      ⟨1, 9, 2, 1, 0, 120, BStatus.booked, 1, some 120, none, 0⟩ (by decide) rfl).2.1
      rfl (by decide))⟩

/-! ## C9: ambulance (immediate) services -/

/-- C9 counterexample: an ambulance service with max_per_day = 1 and
one booked booking already present for the current day is refused with
the full error — the capacity check at views.py 1342-1356 is not
skipped for ambulance services, so an ambulance request can be
capacity-blocked, contradicting "every booking request succeeds". -/
theorem C9_counterexample :
    (book_service ⟨1, 2, 1, 1, none, none, 0, true⟩ 9 none none (20000 * 1440 + 600)
        true none 2
        [⟨1, 7, 2, 1, 20000, 500, BStatus.booked, 1, some 500, none, 0⟩]).result
      = Except.error BookErr.full := by decide

/-- C9 amended: for an available ambulance service, when the
one-per-day check and the max_per_day capacity check pass, the booking
succeeds with scheduled time utcnow + 15 minutes; the window
enforcement and the nearest-slot search are bypassed entirely (the
result does not depend on the window bounds, the requested time or the
taken slots), but the request IS still subject to the one-per-day rule
and, when max_per_day is set, to the capacity limit. -/
theorem C9_amended (svc : HospitalService) (uid : Nat) (reqDay : Option Nat)
    (reqTime : Option Int) (nowMin : Nat) (locked : Bool) (notes : Option String)
    (newId : Nat) (db : List ServiceBooking)
    (hamb : svc.isAmbulance = true) (hav : svc.available = 1)
    (hu : countBookedUser db uid svc.id (nowMin / 1440) = 0)
    (hc : svc.max_per_day = 0 ∨ countBookedDay db svc.id (nowMin / 1440) < svc.max_per_day) :
    (book_service svc uid reqDay reqTime nowMin locked notes newId db).result
      = Except.ok (db ++ [ambBooking svc uid reqDay nowMin notes newId db],
          ambBooking svc uid reqDay nowMin notes newId db) := by
  have heff : effectiveDay svc reqDay nowMin = nowMin / 1440 := by
    unfold effectiveDay
    rw [if_pos hamb]
  unfold book_service
  rw [if_neg (fun hcon => hcon hav), if_neg (by rw [heff]; omega),
    if_neg (by rw [heff]; omega), if_neg (fun hcon => by rw [hamb] at hcon; cases hcon.1),
    if_pos hamb]

/-- C9 witness: a concrete ambulance booking at 10:00 UTC of day 20000
is scheduled at 10:15 the same day with serial 1. -/
theorem C9_witness :
    (book_service ⟨1, 2, 1, 1, some 540, some 720, 30, true⟩ 9 (some 19999) (some 555)
        (20000 * 1440 + 600) true none 2 []).result
      = Except.ok
          ([⟨2, 9, 2, 1, 20000, 615, BStatus.booked, 1, some 615, none, 0⟩],
           ⟨2, 9, 2, 1, 20000, 615, BStatus.booked, 1, some 615, none, 0⟩) :=
  (C9_amended ⟨1, 2, 1, 1, some 540, some 720, 30, true⟩ 9 (some 19999) (some 555)
    (20000 * 1440 + 600) true none 2 [] rfl rfl (by decide) (by decide)).trans
    (by decide)

/-! ## C10: hide_service_booking frame effect -/

/-- C10: hide_service_booking called by the owner of the booking
returns ok and maps hideUpdate over the table: hideUpdate sets only
hidden_by_user to 1 on the rows matching id and user, and preserves
every other column (id, user, hospital, service, day, time, status,
serial, approx_time, notes) of every row; called by any other user it
returns the forbidden error and leaves the table unchanged. -/
theorem C10_hide_frame (db : List ServiceBooking) (bid uid : Nat)
    (sb : ServiceBooking) (hfind : db.find? (fun b => b.id == bid) = some sb) :
    (sb.user_id = uid →
      hide_service_booking db bid uid = (Except.ok (), db.map (hideUpdate bid uid)))
    ∧ (∀ b : ServiceBooking,
        (hideUpdate bid uid b).id = b.id
        ∧ (hideUpdate bid uid b).user_id = b.user_id
        ∧ (hideUpdate bid uid b).hospital_user_id = b.hospital_user_id
        ∧ (hideUpdate bid uid b).service_id = b.service_id
        ∧ (hideUpdate bid uid b).day = b.day
        ∧ (hideUpdate bid uid b).timeHM = b.timeHM
        ∧ (hideUpdate bid uid b).status = b.status
        ∧ (hideUpdate bid uid b).serial = b.serial
        ∧ (hideUpdate bid uid b).approx_time = b.approx_time
        ∧ (hideUpdate bid uid b).notes = b.notes
        ∧ (b.id = bid → b.user_id = uid → (hideUpdate bid uid b).hidden_by_user = 1))
    ∧ (sb.user_id ≠ uid →
      hide_service_booking db bid uid = (Except.error HideErr.forbidden, db)) := by
  refine ⟨?_, ?_, ?_⟩
  · intro howner
    unfold hide_service_booking
    rw [hfind]
    dsimp only
    rw [if_neg (fun hcon => hcon howner)]
  · intro b
    unfold hideUpdate
    by_cases hid : b.id = bid
    · by_cases hu : b.user_id = uid
      · rw [if_pos (by simp [hid, hu])]
        exact ⟨rfl, rfl, rfl, rfl, rfl, rfl, rfl, rfl, rfl, rfl, fun _ _ => rfl⟩
      · rw [if_neg (by simp [hid, hu])]
        exact ⟨rfl, rfl, rfl, rfl, rfl, rfl, rfl, rfl, rfl, rfl,
          fun _ hcon => absurd hcon hu⟩
    · rw [if_neg (by simp [hid])]
      exact ⟨rfl, rfl, rfl, rfl, rfl, rfl, rfl, rfl, rfl, rfl,
        fun hcon _ => absurd hcon hid⟩
  · intro hother
    unfold hide_service_booking
    rw [hfind]
    dsimp only
    rw [if_pos hother]

/-- C10 witness: the owner hides their booking (only hidden_by_user
changes); a different user is refused and the table is unchanged. -/
theorem C10_witness :
    hide_service_booking
        [⟨1, 9, 2, 1, 20000, 600, BStatus.done, 3, some 600, none, 0⟩] 1 9
      = (Except.ok (), [⟨1, 9, 2, 1, 20000, 600, BStatus.done, 3, some 600, none, 1⟩])
    ∧ hide_service_booking
        [⟨1, 9, 2, 1, 20000, 600, BStatus.done, 3, some 600, none, 0⟩] 1 7
      = (Except.error HideErr.forbidden,
         [⟨1, 9, 2, 1, 20000, 600, BStatus.done, 3, some 600, none, 0⟩]) :=
  ⟨((C10_hide_frame [⟨1, 9, 2, 1, 20000, 600, BStatus.done, 3, some 600, none, 0⟩] 1 9
      ⟨1, 9, 2, 1, 20000, 600, BStatus.done, 3, some 600, none, 0⟩ (by decide)).1
      rfl).trans (by decide),
   (C10_hide_frame [⟨1, 9, 2, 1, 20000, 600, BStatus.done, 3, some 600, none, 0⟩] 1 7
      ⟨1, 9, 2, 1, 20000, 600, BStatus.done, 3, some 600, none, 0⟩ (by decide)).2.2
      (by decide)⟩

end CrisisIntel
